import Mathlib

/-!
Shallow embedding of the cross-platform dispatch and
normalization layer (src/lib.rs), together with proofs of the specified
properties. The per-OS native resolver modules (windows, wasm, unix; selected
at build time in lib.rs lines 190-201) are not part of the embedded source,
so the resolver is modelled as an abstract state record following the
resolver contract of the specification; every theorem quantifies over all
resolver states.
-/

namespace WhoAmI

/-- Raw (OS-native) string form, modelling std::ffi::OsString: either valid
portable text, or opaque non-text bytes that cannot be decoded to portable
text. -/
inductive OsString where
  | text (s : String)
  | bytes (b : List Nat)
deriving DecidableEq

/-- Models re-encoding portable text into the raw form (String::into /
OsString::from); the result is always representable as text. -/
def OsString.ofString (s : String) : OsString := OsString.text s

/-- Models decoding the raw form back into portable text
(OsString::into_string): succeeds exactly when the raw form is representable
as text. -/
def OsString.toText : OsString → Option String
  | OsString.text s => some s
  | OsString.bytes _ => none

/-- The DesktopEnv enum of src/lib.rs lines 70-108. -/
inductive DesktopEnv where
  | Gnome
  | Windows
  | Lxde
  | Openbox
  | Mate
  | Xfce
  | Kde
  | Cinnamon
  | I3
  | Aqua
  | Ios
  | Android
  | WebBrowser
  | Console
  | Ubuntu
  | Ermine
  | Orbital
  | Unknown (a : String)
deriving DecidableEq

/-- The Platform enum of src/lib.rs lines 147-161. -/
inductive Platform where
  | Linux
  | Bsd
  | Windows
  | MacOS
  | Ios
  | Android
  | Nintendo
  | Xbox
  | PlayStation
  | Fuchsia
  | Redox
  | Unknown (a : String)
deriving DecidableEq

/-- Whether the value is the Unknown escape variant (the if-let test at
lib.rs line 112). -/
def DesktopEnv.isUnknownVariant : DesktopEnv → Bool
  | DesktopEnv.Unknown _ => true
  | _ => false

/-- Whether the value is the Unknown escape variant (the if-let test at
lib.rs line 165). -/
def Platform.isUnknownVariant : Platform → Bool
  | Platform.Unknown _ => true
  | _ => false

/-- The match arm of the Display impl for DesktopEnv, lib.rs lines 119-138. -/
def DesktopEnv.label : DesktopEnv → String
  | DesktopEnv.Gnome => "Gnome"
  | DesktopEnv.Windows => "Windows"
  | DesktopEnv.Lxde => "LXDE"
  | DesktopEnv.Openbox => "Openbox"
  | DesktopEnv.Mate => "Mate"
  | DesktopEnv.Xfce => "XFCE"
  | DesktopEnv.Kde => "KDE"
  | DesktopEnv.Cinnamon => "Cinnamon"
  | DesktopEnv.I3 => "I3"
  | DesktopEnv.Aqua => "Aqua"
  | DesktopEnv.Ios => "IOS"
  | DesktopEnv.Android => "Android"
  | DesktopEnv.WebBrowser => "Web Browser"
  | DesktopEnv.Console => "Console"
  | DesktopEnv.Ubuntu => "Ubuntu"
  | DesktopEnv.Ermine => "Ermine"
  | DesktopEnv.Orbital => "Orbital"
  | DesktopEnv.Unknown a => a

/-- The match arm of the Display impl for Platform, lib.rs lines 172-185. -/
def Platform.label : Platform → String
  | Platform.Linux => "Linux"
  | Platform.Bsd => "BSD"
  | Platform.Windows => "Windows"
  | Platform.MacOS => "Mac OS"
  | Platform.Ios => "iOS"
  | Platform.Android => "Android"
  | Platform.Nintendo => "Nintendo"
  | Platform.Xbox => "XBox"
  | Platform.PlayStation => "PlayStation"
  | Platform.Fuchsia => "Fuchsia"
  | Platform.Redox => "Redox"
  | Platform.Unknown a => a

/-- Writing a string to a Formatter backed by a growable string buffer; such
a write never fails (models write! to a fmt::Formatter whose sink is a
String). The fmt::Result is modelled as Except. -/
def writeStr (buf s : String) : Except Unit String := Except.ok (buf ++ s)

/-- The Display impl for DesktopEnv (lib.rs lines 110-141): first writes the
literal text Unknown-colon-space when the variant is Unknown, then writes
the label. -/
def DesktopEnv.fmt (d : DesktopEnv) : Except Unit String := do
  let buf ← if d.isUnknownVariant then writeStr "" "Unknown: " else Except.ok ""
  writeStr buf d.label

/-- The Display impl for Platform (lib.rs lines 163-188), structured like
the one for DesktopEnv. -/
def Platform.fmt (p : Platform) : Except Unit String := do
  let buf ← if p.isUnknownVariant then writeStr "" "Unknown: " else Except.ok ""
  writeStr buf p.label

/-- The rendered display text of a DesktopEnv value. -/
def DesktopEnv.display (d : DesktopEnv) : String :=
  (if d.isUnknownVariant then "Unknown: " else "") ++ d.label

/-- The rendered display text of a Platform value. -/
def Platform.display (p : Platform) : String :=
  (if p.isUnknownVariant then "Unknown: " else "") ++ p.label

/-- The fallback expression of distro and distro_os: formatting the literal
word Unknown, a space, and the Display rendering of the platform. Returns
none exactly when the Display impl errors, which is when the format macro
would panic. -/
def formatUnknownFallback (p : Platform) : Option String :=
  match p.fmt with
  | Except.ok s => some ("Unknown " ++ s)
  | Except.error _ => none

/-- Modelled from the spec: the per-OS native resolver modules (windows,
wasm, unix) are not included in the embedded source; this record captures
one resolver state per the resolver contract (spec section 6): raw and text
identity facts, an optional distro value whose absence triggers the
fallback, the two classifications, and a finite ordered language-tag
sequence. -/
structure NativeState where
  username : String
  username_os : OsString
  realname : String
  realname_os : OsString
  devicename : String
  devicename_os : OsString
  hostname : String
  distro : Option String
  distro_os : Option OsString
  desktop_env : DesktopEnv
  platform : Platform
  lang : List String
deriving DecidableEq

/-- make_ascii_lowercase on one character: code points in the ASCII
uppercase range 65-90 get 32 added (the operation is byte-wise in the
source, and in valid UTF-8 the ASCII-range bytes are exactly the ASCII-range
code points); every other character, including all non-ASCII characters, is
unchanged. -/
def asciiLowerChar (c : Char) : Char :=
  if 65 ≤ c.toNat ∧ c.toNat ≤ 90 then Char.ofNat (c.toNat + 32) else c

/-- String::make_ascii_lowercase applied to a whole string, character by
character. -/
def makeAsciiLowercase (s : String) : String :=
  String.mk (s.data.map asciiLowerChar)

/-- pub fn username (lib.rs line 208). -/
def username (st : NativeState) : String := st.username

/-- pub fn username_os (lib.rs line 217). -/
def username_os (st : NativeState) : OsString := st.username_os

/-- pub fn realname (lib.rs line 223). -/
def realname (st : NativeState) : String := st.realname

/-- pub fn realname_os (lib.rs line 229). -/
def realname_os (st : NativeState) : OsString := st.realname_os

/-- pub fn devicename (lib.rs line 237). -/
def devicename (st : NativeState) : String := st.devicename

/-- pub fn devicename_os (lib.rs line 245). -/
def devicename_os (st : NativeState) : OsString := st.devicename_os

/-- pub fn hostname (lib.rs lines 256-260): the resolver hostname with
make_ascii_lowercase applied. -/
def hostname (st : NativeState) : String := makeAsciiLowercase st.hostname

/-- pub fn hostname_os (lib.rs lines 269-271): hostname() re-encoded into
raw form via Into. -/
def hostname_os (st : NativeState) : OsString := OsString.ofString (hostname st)

/-- pub fn distro (lib.rs lines 277-279): the resolver value, or the
formatted fallback when the resolver reports none. The Option result
models panic-freedom: none would mean the format macro panicked. -/
def distro (st : NativeState) : Option String :=
  match st.distro with
  | some d => some d
  | none => formatUnknownFallback st.platform

/-- pub fn distro_os (lib.rs lines 285-288): the resolver raw value, or the
formatted fallback converted into raw form. -/
def distro_os (st : NativeState) : Option OsString :=
  match st.distro_os with
  | some d => some d
  | none => Option.map OsString.ofString (formatUnknownFallback st.platform)

/-- pub fn desktop_env (lib.rs line 294). -/
def desktop_env (st : NativeState) : DesktopEnv := st.desktop_env

/-- pub fn platform (lib.rs line 300). -/
def platform (st : NativeState) : Platform := st.platform

/-- pub fn lang (lib.rs lines 310-312): the finite ordered resolver
sequence of language tags, passed through unchanged. -/
def lang (st : NativeState) : List String := st.lang

/-- Collecting the values yielded by iterating the language sequence, in
yield order. -/
def collectIter (l : List String) : List String := List.foldr List.cons [] l

/-- The thirteen public query operations. -/
inductive Query where
  | qUsername
  | qUsernameOs
  | qRealname
  | qRealnameOs
  | qDevicename
  | qDevicenameOs
  | qHostname
  | qHostnameOs
  | qDistro
  | qDistroOs
  | qDesktopEnv
  | qPlatform
  | qLang
deriving DecidableEq

/-- Result of one public query. -/
inductive QueryResult where
  | str (s : String)
  | os (o : OsString)
  | de (d : DesktopEnv)
  | plat (p : Platform)
  | langs (l : List String)
  | panicked
deriving DecidableEq

/-- State-passing form of the public API: each operation returns its result
together with the process state after the call. Each arm mirrors the body of
the corresponding pub fn, none of which mutates process-wide state (the
only mutation in lib.rs, make_ascii_lowercase at line 258, acts on a local
owned string). A panicked distro result models the case where the format
macro would panic. -/
def runQuery (q : Query) (st : NativeState) : QueryResult × NativeState :=
  match q with
  | Query.qUsername => (QueryResult.str (username st), st)
  | Query.qUsernameOs => (QueryResult.os (username_os st), st)
  | Query.qRealname => (QueryResult.str (realname st), st)
  | Query.qRealnameOs => (QueryResult.os (realname_os st), st)
  | Query.qDevicename => (QueryResult.str (devicename st), st)
  | Query.qDevicenameOs => (QueryResult.os (devicename_os st), st)
  | Query.qHostname => (QueryResult.str (hostname st), st)
  | Query.qHostnameOs => (QueryResult.os (hostname_os st), st)
  | Query.qDistro =>
    (match distro st with
     | some s => QueryResult.str s
     | none => QueryResult.panicked, st)
  | Query.qDistroOs =>
    (match distro_os st with
     | some o => QueryResult.os o
     | none => QueryResult.panicked, st)
  | Query.qDesktopEnv => (QueryResult.de (desktop_env st), st)
  | Query.qPlatform => (QueryResult.plat (platform st), st)
  | Query.qLang => (QueryResult.langs (lang st), st)

/-- A concrete resolver state used to instantiate theorems with hypotheses. -/
def sampleState : NativeState where
  username := "alice"
  username_os := OsString.text "alice"
  realname := "Alice Lidell"
  realname_os := OsString.text "Alice Lidell"
  devicename := "Alice-Laptop"
  devicename_os := OsString.text "Alice-Laptop"
  hostname := "Alice-Laptop"
  distro := none
  distro_os := none
  desktop_env := DesktopEnv.Gnome
  platform := Platform.Linux
  lang := ["en-US", "en", "fr"]

theorem DesktopEnv.fmtDesktopEnv_ok (d : DesktopEnv) : d.fmt = Except.ok d.display := by
  cases d <;> rfl

theorem Platform.fmtPlatform_ok (p : Platform) : p.fmt = Except.ok p.display := by
  cases p <;> rfl

theorem formatUnknownFallback_eq (p : Platform) :
    formatUnknownFallback p = some ("Unknown " ++ p.display) := by
  rw [formatUnknownFallback, Platform.fmtPlatform_ok]

theorem char_toNat_ofNat_of_small {n : Nat} (h : n < 55296) :
    (Char.ofNat n).toNat = n := by
  rw [Char.ofNat, dif_pos (Or.inl h)]
  rfl

theorem asciiLowerChar_not_upper (c : Char) :
    ¬ (65 ≤ (asciiLowerChar c).toNat ∧ (asciiLowerChar c).toNat ≤ 90) := by
  rw [asciiLowerChar]
  split
  · next h =>
    rw [char_toNat_ofNat_of_small (by omega)]
    omega
  · next h => exact h

theorem asciiLowerChar_idem (c : Char) :
    asciiLowerChar (asciiLowerChar c) = asciiLowerChar c := by
  have h := asciiLowerChar_not_upper c
  rw [show asciiLowerChar (asciiLowerChar c) =
      if 65 ≤ (asciiLowerChar c).toNat ∧ (asciiLowerChar c).toNat ≤ 90 then
        Char.ofNat ((asciiLowerChar c).toNat + 32)
      else asciiLowerChar c from rfl,
    if_neg h]

theorem makeAsciiLowercase_idem (s : String) :
    makeAsciiLowercase (makeAsciiLowercase s) = makeAsciiLowercase s := by
  simp only [makeAsciiLowercase, List.map_map]
  congr 1
  exact List.map_congr_left fun c _ => asciiLowerChar_idem c

theorem collectIter_eq (l : List String) : collectIter l = l := by
  induction l with
  | nil => rfl
  | cons a t ih =>
    show List.cons a (collectIter t) = List.cons a t
    rw [ih]

/-- A second concrete resolver state whose platform is the Unknown escape
variant. -/
def sampleUnknownState : NativeState :=
  { sampleState with platform := Platform.Unknown "Haiku" }

theorem platform_display_inj_aux (p q : Platform)
    (hp : p.isUnknownVariant = false) (hq : q.isUnknownVariant = false) :
    (p.display = q.display → p = q) ∧ p.display ≠ "" ∧
    ("Unknown: ".data.isPrefixOf p.display.data) = false := by
  cases p <;> cases q <;> simp [Platform.isUnknownVariant] at hp hq <;> decide

theorem desktopenv_display_inj_aux (d e : DesktopEnv)
    (hd : d.isUnknownVariant = false) (he : e.isUnknownVariant = false) :
    (d.display = e.display → d = e) ∧ d.display ≠ "" ∧
    ("Unknown: ".data.isPrefixOf d.display.data) = false := by
  cases d <;> cases e <;> simp [DesktopEnv.isUnknownVariant] at hd he <;> decide

/-- C1: if the resolver reports no distro value, distro() returns exactly
the string built from the literal word Unknown, a space, and the display
rendering of platform(), and distro_os() returns that same fallback string
re-encoded into raw form; in particular when platform() is Platform.Linux
the result is the string with text Unknown Linux. -/
theorem distro_unknown_fallback (st : NativeState)
    (h : st.distro = none) (h2 : st.distro_os = none) :
    distro st = some ("Unknown " ++ (platform st).display) ∧
    distro_os st = some (OsString.ofString ("Unknown " ++ (platform st).display)) ∧
    (st.platform = Platform.Linux → distro st = some "Unknown Linux") := by
  refine ⟨?_, ?_, fun hp => ?_⟩
  · simp only [distro, h, formatUnknownFallback_eq, platform]
  · simp only [distro_os, h2, formatUnknownFallback_eq, Option.map_some', platform,
      OsString.ofString]
  · simp only [distro, h, formatUnknownFallback_eq, hp]
    rfl

theorem distro_unknown_fallback_witness :
    distro sampleState = some ("Unknown " ++ (platform sampleState).display) ∧
    distro_os sampleState =
      some (OsString.ofString ("Unknown " ++ (platform sampleState).display)) ∧
    (sampleState.platform = Platform.Linux →
      distro sampleState = some "Unknown Linux") :=
  distro_unknown_fallback sampleState rfl rfl

/-- C2: hostname() is the resolver hostname with ASCII-only lower-casing
applied character-wise; characters outside the ASCII uppercase range
(including all non-ASCII characters) are left untouched; the output
contains no ASCII uppercase character; and applying the same lower-casing
to the output is a no-op. -/
theorem hostname_lowercased (st : NativeState) :
    (hostname st).data = st.hostname.data.map asciiLowerChar ∧
    (∀ c : Char, ¬ (65 ≤ c.toNat ∧ c.toNat ≤ 90) → asciiLowerChar c = c) ∧
    (∀ c ∈ (hostname st).data, ¬ (65 ≤ c.toNat ∧ c.toNat ≤ 90)) ∧
    makeAsciiLowercase (hostname st) = hostname st := by
  refine ⟨rfl, fun c hc => if_neg hc, fun c hc => ?_,
    makeAsciiLowercase_idem st.hostname⟩
  have hc2 : c ∈ st.hostname.data.map asciiLowerChar := hc
  obtain ⟨d, _, rfl⟩ := List.mem_map.mp hc2
  exact asciiLowerChar_not_upper d

theorem hostname_lowercased_witness :
    makeAsciiLowercase (hostname sampleState) = hostname sampleState ∧
    asciiLowerChar 'a' = 'a' :=
  ⟨(hostname_lowercased sampleState).2.2.2,
   (hostname_lowercased sampleState).2.1 'a' (by decide)⟩

/-- C3: hostname_os() is exactly the re-encoding into raw form of the
string hostname() returns, so the raw form always decodes back to
the output of hostname() and the two can never disagree. -/
theorem hostname_os_derived (st : NativeState) :
    hostname_os st = OsString.ofString (hostname st) ∧
    OsString.toText (hostname_os st) = some (hostname st) :=
  ⟨rfl, rfl⟩

/-- C4: for every string, the display rendering of the Unknown variant of
DesktopEnv and of Platform is exactly the literal label followed by the
carried text. -/
theorem display_unknown_prefix (s : String) :
    DesktopEnv.display (DesktopEnv.Unknown s) = "Unknown: " ++ s ∧
    Platform.display (Platform.Unknown s) = "Unknown: " ++ s :=
  ⟨rfl, rfl⟩

/-- C5: among non-Unknown variants, display text is injective within each
enum (no two non-Unknown variants share a label), non-empty, and never
begins with the Unknown-variant label prefix. -/
theorem display_unique_nonempty (p q : Platform) (d e : DesktopEnv)
    (hp : p.isUnknownVariant = false) (hq : q.isUnknownVariant = false)
    (hd : d.isUnknownVariant = false) (he : e.isUnknownVariant = false) :
    ((p.display = q.display → p = q) ∧ p.display ≠ "" ∧
      ("Unknown: ".data.isPrefixOf p.display.data) = false) ∧
    ((d.display = e.display → d = e) ∧ d.display ≠ "" ∧
      ("Unknown: ".data.isPrefixOf d.display.data) = false) :=
  ⟨platform_display_inj_aux p q hp hq, desktopenv_display_inj_aux d e hd he⟩

theorem display_unique_nonempty_witness :
    ((Platform.display Platform.Linux = Platform.display Platform.Bsd →
        Platform.Linux = Platform.Bsd) ∧
      Platform.display Platform.Linux ≠ "" ∧
      ("Unknown: ".data.isPrefixOf (Platform.display Platform.Linux).data) = false) ∧
    ((DesktopEnv.display DesktopEnv.Gnome = DesktopEnv.display DesktopEnv.Kde →
        DesktopEnv.Gnome = DesktopEnv.Kde) ∧
      DesktopEnv.display DesktopEnv.Gnome ≠ "" ∧
      ("Unknown: ".data.isPrefixOf (DesktopEnv.display DesktopEnv.Gnome).data) = false) :=
  display_unique_nonempty Platform.Linux Platform.Bsd DesktopEnv.Gnome
    DesktopEnv.Kde rfl rfl rfl rfl

/-- C6: the fallback path of distro() and distro_os() never panics: for
every resolver state both operations produce a value, and the Display impl
for Platform never errors, including on the Unknown variant with any
carried text (so the format macro in the fallback cannot panic); the
fallback also cannot recurse, as witnessed by the definitions being
accepted as total, structurally terminating functions. -/
theorem distro_fallback_no_panic (st : NativeState) :
    (distro st).isSome = true ∧ (distro_os st).isSome = true ∧
    (∀ text : String,
      Platform.fmt (Platform.Unknown text) = Except.ok ("Unknown: " ++ text)) := by
  refine ⟨?_, ?_, fun text => Platform.fmtPlatform_ok (Platform.Unknown text)⟩
  · cases h : st.distro with
    | some d => simp [distro, h]
    | none => simp [distro, h, formatUnknownFallback_eq]
  · cases h : st.distro_os with
    | some d => simp [distro_os, h]
    | none => simp [distro_os, h, formatUnknownFallback_eq]

/-- C7: lang() passes the finite resolver language-tag sequence through
unchanged: collecting the iterator yields exactly the resolver sequence in
yield order (for instance resolver output en-US, en, fr yields exactly that
list), and the sequence is restartable, two collections yielding the same
list. -/
theorem lang_order_preserving (st : NativeState) :
    collectIter (lang st) = st.lang ∧
    (st.lang = ["en-US", "en", "fr"] →
      collectIter (lang st) = ["en-US", "en", "fr"]) ∧
    collectIter (lang st) = collectIter (lang st) := by
  refine ⟨collectIter_eq st.lang, fun h => ?_, rfl⟩
  rw [lang, collectIter_eq, h]

theorem lang_order_preserving_witness :
    collectIter (lang sampleState) = ["en-US", "en", "fr"] :=
  (lang_order_preserving sampleState).2.1 rfl

/-- C8: every public query operation is a pure read: running any query
leaves the resolver state unchanged, and running the same query twice
against the resulting state returns equal results (two-run determinism). -/
theorem queries_pure (q : Query) (st : NativeState) :
    (runQuery q st).2 = st ∧
    (runQuery q (runQuery q st).2).1 = (runQuery q st).1 := by
  cases q <;> exact ⟨rfl, rfl⟩

/-- C9: when the resolver reports no distro value and platform() is the
Unknown variant carrying some text, distro() returns the word Unknown, a
space, then the Unknown display prefix and the carried text: the fallback
stacks the two prefixes. -/
theorem distro_double_unknown (st : NativeState) (text : String)
    (h1 : st.distro = none) (h2 : st.platform = Platform.Unknown text) :
    distro st = some ("Unknown Unknown: " ++ text) := by
  simp only [distro, h1, formatUnknownFallback_eq, h2]
  rfl

theorem distro_double_unknown_witness :
    distro sampleUnknownState = some ("Unknown Unknown: " ++ "Haiku") :=
  distro_double_unknown sampleUnknownState "Haiku" rfl rfl

/-- C10: the raw form returned by hostname_os() is always representable as
portable text: for every resolver state, decoding it succeeds, and the
decoded text is the output of hostname(). -/
theorem hostname_os_text_representable (st : NativeState) :
    ∃ s : String, OsString.toText (hostname_os st) = some s ∧ s = hostname st :=
  ⟨hostname st, rfl, rfl⟩

end WhoAmI
